import Mathlib

/-!
Shallow embedding of `app_aqarmap.py`, a Streamlit dashboard over a
real-estate CSV dataset: the table/cell data model, the numeric coercion
pass of `eda_page` (pandas `to_numeric(..., errors='coerce')` after
stripping "," resp. " m²"), the categorical chart-type selection, the
per-page effect traces, and the navigation dispatch `page_dict[option]()`.
-/

namespace Aqarmap

/-- A cell of a loaded table: a raw text value, an already-numeric value,
or a missing value (pandas `NaN`). -/
inductive Cell where
  | str (s : String)
  | num (q : ℚ)
  | missing
deriving DecidableEq, Repr

/-- A column is the list of its cells, top to bottom. -/
abbrev Column := List Cell

/-- A loaded dataframe: named columns in order. -/
abbrev Table := List (String × Column)

def Cell.isMissing : Cell → Bool
  | .missing => true
  | _ => false

def Cell.isNum : Cell → Bool
  | .num _ => true
  | _ => false

/-- Numeric value of a digit list, most significant first. -/
def digitsValN (l : List Char) : ℕ :=
  l.foldl (fun a c => a * 10 + (c.toNat - '0'.toNat)) 0

/-- Parse an unsigned numeric literal: digits with an optional fractional
part, as accepted by pandas `to_numeric` on the fragment this app relies
on. -/
def parseUnsigned (l : List Char) : Option ℚ :=
  match l.dropWhile Char.isDigit with
  | [] =>
      if l.takeWhile Char.isDigit = [] then none
      else some ((digitsValN (l.takeWhile Char.isDigit) : ℕ) : ℚ)
  | '.' :: frac =>
      if frac.all Char.isDigit && !(l.takeWhile Char.isDigit = [] && frac = []) then
        some (((digitsValN (l.takeWhile Char.isDigit) : ℕ) : ℚ) +
          ((digitsValN frac : ℕ) : ℚ) / 10 ^ frac.length)
      else none
  | _ => none

/-- Model of pandas `pd.to_numeric(·, errors='coerce')` on a single raw
string: `some q` when the text is a valid (optionally signed, optionally
fractional) decimal numeral, `none` otherwise. -/
def toNumeric (s : String) : Option ℚ :=
  match s.toList with
  | [] => none
  | c :: rest =>
      if c = '-' then (parseUnsigned rest).map (fun q => -q)
      else if c = '+' then parseUnsigned rest
      else parseUnsigned (c :: rest)

/-- `Series.str.replace(",", "")`: removing every comma is filtering the
comma characters out. -/
def stripCommas (s : String) : String :=
  ⟨s.toList.filter (fun c => c ≠ ',')⟩

/-- Worker for `removeSubstr`: while `skip` is positive the current
character belongs to an occurrence already matched and is dropped;
at `skip = 0` a fresh occurrence of `pat` starting here is dropped
(entering skip mode for its remaining `pat.length - 1` characters),
otherwise the character is kept.  Structural recursion on the list keeps
every concrete evaluation kernel-reducible. -/
def removeSubstrGo (pat : List Char) : ℕ → List Char → List Char
  | _, [] => []
  | Nat.succ k, _ :: rest => removeSubstrGo pat k rest
  | 0, c :: rest =>
      if pat.isPrefixOf (c :: rest) then
        removeSubstrGo pat (pat.length - 1) rest
      else
        c :: removeSubstrGo pat 0 rest

/-- Remove every (leftmost, non-overlapping) occurrence of the non-empty
pattern `pat` from the list, the semantics of `str.replace(pat, "")`. -/
def removeSubstr (pat : List Char) (l : List Char) : List Char :=
  removeSubstrGo pat 0 l

/-- `Series.str.replace(" m²", "")`. -/
def stripAreaSuffix (s : String) : String :=
  ⟨removeSubstr " m²".toList s.toList⟩

/-- Coerce one cell the way
`pd.to_numeric(col.astype(str).str.replace(...), errors='coerce')` does:
clean the raw text, parse it, and turn parse failure into a missing
value.  An already-numeric cell round-trips through its own numeral (the
cleanups touch only commas and the `" m²"` suffix, which a plain numeral
does not contain), and a missing cell stays missing (`astype(str)`
renders `NaN` as `"nan"`, which `to_numeric` maps back to `NaN`). -/
def coerceCell (clean : String → String) : Cell → Cell
  | .str s =>
      match toNumeric (clean s) with
      | some q => .num q
      | none => .missing
  | .num q => .num q
  | .missing => .missing

/-- Coerce a whole column, cell by cell. -/
def coerceColumn (clean : String → String) (c : Column) : Column :=
  c.map (coerceCell clean)

/-- `df[name] = coerced`: replace the column(s) called `name` by their
coerced version, leaving every other column untouched. -/
def coerceColumnIn (t : Table) (name : String) (clean : String → String) : Table :=
  t.map (fun p => (p.1, if p.1 = name then coerceColumn clean p.2 else p.2))

/-- The three-line coercion pass of `eda_page` (source lines 46-48). -/
def coercePass (t : Table) : Table :=
  coerceColumnIn
    (coerceColumnIn
      (coerceColumnIn t "Price" stripCommas)
      "Area in m²" stripAreaSuffix)
    "Bedrooms" (fun s => s)

/-- `df[name]`: the first column called `name`, if any. -/
def getCol (t : Table) (name : String) : Option Column :=
  match t with
  | [] => none
  | p :: rest => if p.1 = name then some p.2 else getCol rest name

/-! ### Categorical chart selection (`eda_page`, source lines 66-79) -/

/-- The three chart kinds the categorical loop can emit. -/
inductive ChartType where
  | pie
  | bar
  | histogram
deriving DecidableEq, Repr

/-- `df[col].nunique()`: the number of distinct non-missing values of a
column (pandas drops `NaN` by default). -/
def nunique (c : Column) : ℕ :=
  ((c.filter (fun x => !x.isMissing)).dedup).length

/-- The branch on `unique_vals` in the categorical loop: `< 7` pie,
`> 10` histogram, otherwise (7..10) bar. -/
def chartForCount (u : ℕ) : ChartType :=
  if u < 7 then ChartType.pie
  else if u > 10 then ChartType.histogram
  else ChartType.bar

/-- The chart chosen for a categorical column. -/
def chartFor (c : Column) : ChartType :=
  chartForCount (nunique c)

/-- `select_dtypes(include="number")` membership: a column whose cells
are all numeric or missing (pandas gives such a column a numeric dtype;
any column holding text has dtype `object`). -/
def isNumericCol (c : Column) : Bool :=
  c.all (fun x => x.isNum || x.isMissing)

/-! ### Page effect traces -/

/-- The filesystem the app reads from: CSV file name to loaded table. -/
abbrev FS := String → Table

/-- One observable action of a page: a CSV read or a call into the
Streamlit rendering layer.  Chart contents are abstracted to a label and
the dataframe they are drawn from (the rendering library owns them). -/
inductive Effect where
  | readCSV (file : String) (t : Table)
  | title (s : String)
  | subheader (s : String)
  | write (s : String)
  | dataframe (t : Table)
  | markdownE (s : String)
  | tabsE (names : List String)
  | chart (label : String) (t : Table)
deriving DecidableEq, Repr

/-- The introduction text of the home page (`intro_text`). -/
def homeIntroText : String :=
  "This project analyzes real estate listings scraped from **Aqarmap**.\n" ++
  "**Dataset Overview:** price, price per meter, location, area, bedrooms, bathrooms, and more; " ++
  "both **numerical** and **categorical** features.\n" ++
  "**Key Insights from EDA:** average property price 7,432,927.8 EGP; most listings in **New Cairo**; " ++
  "typical apartment area around **149 sqm**; **3rd floor** most frequently listed; " ++
  "**Ain Sokhna** highest price per meter; **160 sqm** most listed among top 10 sizes.\n" ++
  "Suitable for **EDA**, **visualization**, and **predictive modeling** after preprocessing and scaling."

/-- `home_page()`: render the intro, read the merged-listings CSV, show it. -/
def home_page (fs : FS) : List Effect :=
  let df := fs "aqarmap_all_apartments_merged.csv"
  [Effect.title "Real Estate Data Analysis - Aqarmap Project",
   Effect.subheader "Project Introduction",
   Effect.write homeIntroText,
   Effect.subheader "Scraped Real Estate Dataset",
   Effect.readCSV "aqarmap_all_apartments_merged.csv" df,
   Effect.dataframe df]

/-- Univariate numeric loop: one `st.pyplot` (histogram + boxplot figure)
per numeric column. -/
def univariateNumeric (df : Table) : List Effect :=
  Effect.subheader "Numeric Columns" ::
  (df.filter (fun p => isNumericCol p.2)).flatMap
    (fun p => [Effect.chart ("Distribution and Boxplot of " ++ p.1) df])

/-- One iteration of the categorical loop: the markdown header, then the
chart picked by the `nunique` thresholds. -/
def catChartEffects (df : Table) (p : String × Column) : List Effect :=
  Effect.markdownE p.1 ::
  (match chartFor p.2 with
   | ChartType.pie => [Effect.chart ("Pie Chart of " ++ p.1) df]
   | ChartType.histogram => [Effect.chart ("Count Plot of " ++ p.1) df]
   | ChartType.bar => [Effect.chart ("Bar Chart of " ++ p.1) df])

/-- Univariate categorical loop over the `object`/`string` columns. -/
def univariateCategorical (df : Table) : List Effect :=
  Effect.subheader "Categorical Columns" ::
  (df.filter (fun p => !isNumericCol p.2)).flatMap (catChartEffects df)

/-- The ten bivariate renders (source lines 82-157), abstracted to their
labels over the coerced dataframe. -/
def bivariateEffects (df : Table) : List Effect :=
  [Effect.subheader "Bivariate Analysis",
   Effect.markdownE "**1) Price Distribution by View**",
   Effect.chart "Price Distribution by View" df,
   Effect.markdownE "Most of the data is between 10-30M, but the most expensive is an apartment with main street view.",
   Effect.markdownE "**2) Average Price per Square Meter by Governorate**",
   Effect.chart "Average price per square meter for each governorate" df,
   Effect.markdownE "**3) Average Property Price by Payment Method**",
   Effect.chart "Average Property Price by Payment Method" df,
   Effect.markdownE "Properties paid in cash are lower priced than those purchased via installment or other methods.",
   Effect.markdownE "**4) Number of Ads by Governorate**",
   Effect.chart "Number of Ads by Governorate" df,
   Effect.markdownE "**5) Price across Year Built**",
   Effect.chart "Price across Year Built" df,
   Effect.markdownE "**6) Most Advertised Floors**",
   Effect.chart "Most Advertised Floors" df,
   Effect.markdownE "**7) Relationship between Price and Floor**",
   Effect.chart "Relationship between Price and Floor" df,
   Effect.markdownE "**8) Top 10 Most Common Areas**",
   Effect.chart "Top 10 Most Common Areas" df,
   Effect.markdownE "**9) Property Price Distribution in Selected Governorates**",
   Effect.chart "Property Price Distribution in North Coast, Alexandria, and Marsa Matruh" df,
   Effect.markdownE "**10) Price vs Number of Bedrooms**",
   Effect.chart "Price vs Number of Bedrooms" df]

/-- The multivariate tab: a pairplot over the numeric sub-table. -/
def multivariateEffects (df : Table) : List Effect :=
  [Effect.subheader "Multivariate Analysis - Numeric Columns",
   Effect.chart "pairplot" (df.filter (fun p => isNumericCol p.2))]

/-- `eda_page()`: read `aqar_deployment.csv`, run the coercion pass, then
render the three analysis tabs on the coerced table. -/
def eda_page (fs : FS) : List Effect :=
  let df0 := fs "aqar_deployment.csv"
  let df := coercePass df0
  Effect.title "Exploratory Data Analysis" ::
  Effect.readCSV "aqar_deployment.csv" df0 ::
  Effect.tabsE ["Univariate Analysis", "Bivariate Analysis", "Multivariate Analysis"] ::
  (univariateNumeric df ++ univariateCategorical df ++
   bivariateEffects df ++ multivariateEffects df)

/-- `preprocessed_page()`: read `Full_train_set.csv` and show it. -/
def preprocessed_page (fs : FS) : List Effect :=
  let df := fs "Full_train_set.csv"
  [Effect.title "Preprocessed Data",
   Effect.readCSV "Full_train_set.csv" df,
   Effect.dataframe df]

/-! ### Navigation dispatch (source lines 172-178) -/

/-- Identifiers of the three page functions. -/
inductive PageId where
  | home
  | eda
  | preprocessed
deriving DecidableEq, Repr

/-- The `page_dict` literal: view name to page function. -/
def page_dict : List (String × PageId) :=
  [("Home Page", PageId.home),
   ("EDA & Plots", PageId.eda),
   ("Preprocessed Data", PageId.preprocessed)]

/-- Dictionary lookup `page_dict[option]` on the association list. -/
def pageLookup (option : String) : Option PageId :=
  match page_dict.find? (fun p => p.1 = option) with
  | some p => some p.2
  | none => none

/-- The page function a `PageId` stands for. -/
def runPageFn : PageId → FS → List Effect
  | PageId.home => home_page
  | PageId.eda => eda_page
  | PageId.preprocessed => preprocessed_page

/-- The page functions invoked during one interaction cycle: the single
call `page_dict[option]()`, or none when the key is absent. -/
def invocations (option : String) : List PageId :=
  match pageLookup option with
  | some p => [p]
  | none => []

/-- One whole interaction cycle, `page_dict[option]()`: a missing key
raises `KeyError` (modelled as `Except.error`), a present key runs that
page on the filesystem. -/
def appCycle (option : String) (fs : FS) : Except String (List Effect) :=
  match pageLookup option with
  | some p => Except.ok (runPageFn p fs)
  | none => Except.error ("KeyError: " ++ option)

/-- The CSV files read by a trace, in order. -/
def readsOf (es : List Effect) : List String :=
  es.filterMap (fun e =>
    match e with
    | Effect.readCSV f _ => some f
    | _ => none)

/-- The `" m²"` pattern as a character list. -/
def msq : List Char := " m²".toList

/-- The per-column cleanup the coercion pass applies, by column name:
commas stripped for `Price`, the `" m²"` suffix stripped for
`Area in m²`, plain parsing for `Bedrooms`, identity elsewhere. -/
def cleanFor (name : String) : Column → Column :=
  if name = "Bedrooms" then coerceColumn (fun s => s)
  else if name = "Area in m²" then coerceColumn stripAreaSuffix
  else if name = "Price" then coerceColumn stripCommas
  else id

/-! ### Helper lemmas -/

theorem getCol_mapVals (t : Table) (name : String) (g : String → Column → Column) :
    getCol (t.map (fun p => (p.1, g p.1 p.2))) name = (getCol t name).map (g name) := by
  induction t with
  | nil => rfl
  | cons p rest ih =>
      by_cases hp : p.1 = name
      · simp [getCol, hp]
      · simp [getCol, hp, ih]

theorem getCol_coerceColumnIn (t : Table) (n name : String) (clean : String → String) :
    getCol (coerceColumnIn t n clean) name =
      if name = n then (getCol t name).map (coerceColumn clean)
      else getCol t name := by
  have h := getCol_mapVals t name (fun m col => if m = n then coerceColumn clean col else col)
  simp only [coerceColumnIn] at *
  rw [h]
  by_cases hn : name = n
  · simp [hn]
  · simp [hn, Option.map_id]

/-- The coercion pass acts on each column through `cleanFor` of its name:
every column's result is a function of that column's raw cells alone. -/
theorem getCol_coercePass (t : Table) (name : String) :
    getCol (coercePass t) name = (getCol t name).map (cleanFor name) := by
  simp only [coercePass, getCol_coerceColumnIn, cleanFor]
  by_cases h1 : name = "Bedrooms" <;> by_cases h2 : name = "Area in m²" <;>
    by_cases h3 : name = "Price" <;>
    simp_all [Option.map_id]

theorem keys_coerceColumnIn (t : Table) (n : String) (clean : String → String) :
    (coerceColumnIn t n clean).map Prod.fst = t.map Prod.fst := by
  simp [coerceColumnIn, List.map_map, Function.comp]

theorem keys_coercePass (t : Table) :
    (coercePass t).map Prod.fst = t.map Prod.fst := by
  simp [coercePass, keys_coerceColumnIn]

theorem Char.isDigit_ne_dash {c : Char} (h : c.isDigit = true) : ¬ c = '-' := by
  intro e; subst e; simp [Char.isDigit] at h

theorem Char.isDigit_ne_plus {c : Char} (h : c.isDigit = true) : ¬ c = '+' := by
  intro e; subst e; simp [Char.isDigit] at h

theorem Char.isDigit_ne_space {c : Char} (h : c.isDigit = true) : ¬ c = ' ' := by
  intro e; subst e; simp [Char.isDigit] at h

theorem parseUnsigned_all_digits (l : List Char) (hne : l ≠ [])
    (hd : ∀ c ∈ l, c.isDigit) :
    parseUnsigned l = some ((digitsValN l : ℕ) : ℚ) := by
  have ht : l.takeWhile Char.isDigit = l := List.takeWhile_eq_self_iff.mpr hd
  have hdd : l.dropWhile Char.isDigit = [] := List.dropWhile_eq_nil_iff.mpr hd
  simp only [parseUnsigned, hdd, ht, if_neg hne]

/-- A non-empty all-digit string parses to its digit value. -/
theorem toNumeric_all_digits (l : List Char) (hne : l ≠ [])
    (hd : ∀ c ∈ l, c.isDigit) :
    toNumeric (String.mk l) = some ((digitsValN l : ℕ) : ℚ) := by
  cases l with
  | nil => exact absurd rfl hne
  | cons c rest =>
      have hc : c.isDigit := hd c (List.mem_cons_self c rest)
      show toNumeric ⟨c :: rest⟩ = _
      simp only [toNumeric, String.toList]
      rw [if_neg (Char.isDigit_ne_dash hc), if_neg (Char.isDigit_ne_plus hc)]
      exact parseUnsigned_all_digits (c :: rest) hne hd

/-- Removing `" m²"` from a digit string followed by the suffix leaves
exactly the digit string. -/
theorem removeSubstr_digits_append (d : List Char) (hd : ∀ c ∈ d, c.isDigit) :
    removeSubstr msq (d ++ msq) = d := by
  induction d with
  | nil => decide
  | cons c rest ih =>
      have hc : c.isDigit := hd c (List.mem_cons_self c rest)
      have hrest : ∀ x ∈ rest, x.isDigit := fun x hx => hd x (List.mem_cons_of_mem c hx)
      have hpre : msq.isPrefixOf (c :: (rest ++ msq)) = false := by
        simp [msq, List.isPrefixOf]
        intro e
        exact absurd e.symm (Char.isDigit_ne_space hc)
      simp only [removeSubstr, removeSubstrGo, List.append_eq, List.cons_append, hpre] at ih ⊢
      simp only [Bool.false_eq_true, if_false]
      exact congrArg (c :: ·) (ih hrest)

theorem readsOf_cons (e : Effect) (es : List Effect) :
    readsOf (e :: es) =
      (match e with | Effect.readCSV f _ => [f] | _ => []) ++ readsOf es := by
  cases e <;> rfl

theorem readsOf_append (a b : List Effect) :
    readsOf (a ++ b) = readsOf a ++ readsOf b := by
  simp [readsOf, List.filterMap_append]

theorem readsOf_flatMap_nil {α : Type} (l : List α) (f : α → List Effect)
    (h : ∀ a, readsOf (f a) = []) : readsOf (l.flatMap f) = [] := by
  induction l with
  | nil => rfl
  | cons a l ih => simp [List.flatMap_cons, readsOf_append, h a, ih]

theorem readsOf_catChartEffects (df : Table) (p : String × Column) :
    readsOf (catChartEffects df p) = [] := by
  unfold catChartEffects
  cases chartFor p.2 <;> rfl

theorem readsOf_univariateNumeric (df : Table) :
    readsOf (univariateNumeric df) = [] := by
  unfold univariateNumeric
  rw [readsOf_cons, readsOf_flatMap_nil (df.filter (fun p => isNumericCol p.2))
    (fun p => [Effect.chart ("Distribution and Boxplot of " ++ p.1) df]) (fun a => rfl)]
  rfl

theorem readsOf_univariateCategorical (df : Table) :
    readsOf (univariateCategorical df) = [] := by
  unfold univariateCategorical
  rw [readsOf_cons, readsOf_flatMap_nil _ _ (readsOf_catChartEffects df)]
  rfl

theorem readsOf_bivariateEffects (df : Table) :
    readsOf (bivariateEffects df) = [] := rfl

theorem readsOf_multivariateEffects (df : Table) :
    readsOf (multivariateEffects df) = [] := rfl

/-! ### Claim theorems -/

/-- C1: any raw string that does not parse as a number after cleanup
coerces to the missing-value marker instead of raising an error, every
other row of the column coerces exactly as it would without the failing
row, and each of the three coerced columns of the table is produced
independently, as a function of its own raw cells alone. -/
theorem coerce_or_null (clean : String → String) (s : String)
    (h : toNumeric (clean s) = none) :
    coerceCell clean (Cell.str s) = Cell.missing ∧
    (∀ xs ys : Column, coerceColumn clean (xs ++ Cell.str s :: ys) =
        coerceColumn clean xs ++ Cell.missing :: coerceColumn clean ys) ∧
    (∀ t : Table,
      getCol (coercePass t) "Price" = (getCol t "Price").map (coerceColumn stripCommas) ∧
      getCol (coercePass t) "Area in m²" =
        (getCol t "Area in m²").map (coerceColumn stripAreaSuffix) ∧
      getCol (coercePass t) "Bedrooms" =
        (getCol t "Bedrooms").map (coerceColumn (fun s => s))) := by
  have hcell : coerceCell clean (Cell.str s) = Cell.missing := by
    simp [coerceCell, h]
  refine ⟨hcell, ?_, ?_⟩
  · intro xs ys
    simp [coerceColumn, hcell]
  · intro t
    refine ⟨?_, ?_, ?_⟩ <;> simp [getCol_coercePass, cleanFor]

/-- Witness for C1 at the unparseable string `"N/A"` in a Price column. -/
theorem coerce_or_null_witness :
    coerceCell stripCommas (Cell.str "N/A") = Cell.missing ∧
    coerceColumn stripCommas ([Cell.str "7"] ++ Cell.str "N/A" :: [Cell.str "9"]) =
      coerceColumn stripCommas [Cell.str "7"] ++
        Cell.missing :: coerceColumn stripCommas [Cell.str "9"] := by
  have h := coerce_or_null stripCommas "N/A" (by decide)
  exact ⟨h.1, h.2.1 [Cell.str "7"] [Cell.str "9"]⟩

/-- C2: the chart type for a categorical column is determined solely by
its number of distinct values, with fewer than 7 giving a pie chart,
7 to 10 inclusive a bar chart, more than 10 a histogram, and the
boundary counts 6, 7, 10, 11 giving pie, bar, bar, histogram. -/
theorem categorical_chart_thresholds :
    (∀ c₁ c₂ : Column, nunique c₁ = nunique c₂ → chartFor c₁ = chartFor c₂) ∧
    (∀ c : Column,
      (nunique c < 7 → chartFor c = ChartType.pie) ∧
      (7 ≤ nunique c → nunique c ≤ 10 → chartFor c = ChartType.bar) ∧
      (10 < nunique c → chartFor c = ChartType.histogram)) ∧
    (chartForCount 6 = ChartType.pie ∧ chartForCount 7 = ChartType.bar ∧
     chartForCount 10 = ChartType.bar ∧ chartForCount 11 = ChartType.histogram) := by
  refine ⟨fun c₁ c₂ h => by simp [chartFor, h], fun c => ⟨?_, ?_, ?_⟩, by decide⟩
  · intro h
    unfold chartFor chartForCount
    rw [if_pos (by omega)]
  · intro h1 h2
    unfold chartFor chartForCount
    rw [if_neg (by omega), if_neg (by omega)]
  · intro h
    unfold chartFor chartForCount
    rw [if_neg (by omega), if_pos (by omega)]

/-- Witness for C2 at columns with 6, 7, 10 and 11 distinct values. -/
theorem categorical_chart_thresholds_witness :
    chartFor (["a", "b", "c", "d", "e", "f"].map Cell.str) = ChartType.pie ∧
    chartFor (["a", "b", "c", "d", "e", "f", "g"].map Cell.str) = ChartType.bar ∧
    chartFor (["a", "b", "c", "d", "e", "f", "g", "h", "i", "j"].map Cell.str) =
      ChartType.bar ∧
    chartFor (["a", "b", "c", "d", "e", "f", "g", "h", "i", "j", "k"].map Cell.str) =
      ChartType.histogram :=
  ⟨(categorical_chart_thresholds.2.1 _).1 (by decide),
   (categorical_chart_thresholds.2.1 _).2.1 (by decide) (by decide),
   (categorical_chart_thresholds.2.1 _).2.1 (by decide) (by decide),
   (categorical_chart_thresholds.2.1 _).2.2 (by decide)⟩

/-- C3: a string whose characters are digits once the commas are removed
coerces, in the Price column, to the number formed by those digits. -/
theorem price_comma_coercion (s : String)
    (h1 : ∀ c ∈ s.toList.filter (fun c => c ≠ ','), c.isDigit)
    (h2 : s.toList.filter (fun c => c ≠ ',') ≠ []) :
    coerceCell stripCommas (Cell.str s) =
      Cell.num ((digitsValN (s.toList.filter (fun c => c ≠ ',')) : ℕ) : ℚ) := by
  have h := toNumeric_all_digits (s.toList.filter (fun c => c ≠ ',')) h2 h1
  simp only [coerceCell, stripCommas, h]

/-- Witness for C3: the string `"1,234,500"` coerces to `1234500`. -/
theorem price_comma_coercion_witness :
    coerceCell stripCommas (Cell.str "1,234,500") = Cell.num (1234500 : ℚ) := by
  rw [price_comma_coercion "1,234,500" (by decide) (by decide)]
  decide

/-- C4: a digit string followed by the `" m²"` suffix coerces, in the
Area column, to the number formed by the digits with the suffix removed. -/
theorem area_suffix_coercion (d : List Char) (h1 : d ≠ [])
    (h2 : ∀ c ∈ d, c.isDigit) :
    coerceCell stripAreaSuffix (Cell.str (String.mk (d ++ " m²".toList))) =
      Cell.num ((digitsValN d : ℕ) : ℚ) := by
  have hstrip : stripAreaSuffix (String.mk (d ++ " m²".toList)) = String.mk d :=
    congrArg String.mk (removeSubstr_digits_append d h2)
  simp only [coerceCell, hstrip, toNumeric_all_digits d h1 h2]

/-- Witness for C4: the string `"149 m²"` coerces to `149`. -/
theorem area_suffix_coercion_witness :
    coerceCell stripAreaSuffix (Cell.str "149 m²") = Cell.num (149 : ℚ) := by
  have h := area_suffix_coercion ['1', '4', '9'] (by decide) (by decide)
  have he : String.mk (['1', '4', '9'] ++ " m²".toList) = "149 m²" := rfl
  rw [he] at h
  rw [h]
  decide

/-- C5: each of the three known view names dispatches to exactly its own
page function, invoked exactly once per interaction cycle, and to
neither of the other two. -/
theorem navigation_dispatch_known :
    (invocations "Home Page" = [PageId.home] ∧
     invocations "EDA & Plots" = [PageId.eda] ∧
     invocations "Preprocessed Data" = [PageId.preprocessed]) ∧
    ((invocations "Home Page").count PageId.home = 1 ∧
     (invocations "Home Page").count PageId.eda = 0 ∧
     (invocations "Home Page").count PageId.preprocessed = 0) ∧
    ((invocations "EDA & Plots").count PageId.eda = 1 ∧
     (invocations "EDA & Plots").count PageId.home = 0 ∧
     (invocations "EDA & Plots").count PageId.preprocessed = 0) ∧
    ((invocations "Preprocessed Data").count PageId.preprocessed = 1 ∧
     (invocations "Preprocessed Data").count PageId.home = 0 ∧
     (invocations "Preprocessed Data").count PageId.eda = 0) ∧
    (∀ fs : FS,
      appCycle "Home Page" fs = Except.ok (home_page fs) ∧
      appCycle "EDA & Plots" fs = Except.ok (eda_page fs) ∧
      appCycle "Preprocessed Data" fs = Except.ok (preprocessed_page fs)) :=
  ⟨by decide, by decide, by decide, by decide, fun fs => ⟨rfl, rfl, rfl⟩⟩

/-- C6: the coercion pass touches only the Price, Area and Bedrooms
columns; every other column is unchanged and the column names and their
order are preserved. -/
theorem coercion_frame_effect (t : Table) (name : String)
    (h1 : ¬ name = "Price") (h2 : ¬ name = "Area in m²") (h3 : ¬ name = "Bedrooms") :
    getCol (coercePass t) name = getCol t name ∧
    (coercePass t).map Prod.fst = t.map Prod.fst := by
  refine ⟨?_, keys_coercePass t⟩
  rw [getCol_coercePass]
  simp [cleanFor, h1, h2, h3, Option.map_id]

/-- Witness for C6 at a table with Governorate, Floor and Year Built
columns next to the Price column. -/
theorem coercion_frame_effect_witness :
    getCol (coercePass
      [("Price", [Cell.str "1,000"]), ("Governorate", [Cell.str "Cairo"]),
       ("Floor", [Cell.str "3"]), ("Year Built", [Cell.str "2001"])]) "Governorate" =
    getCol
      [("Price", [Cell.str "1,000"]), ("Governorate", [Cell.str "Cairo"]),
       ("Floor", [Cell.str "3"]), ("Year Built", [Cell.str "2001"])] "Governorate" ∧
    (coercePass
      [("Price", [Cell.str "1,000"]), ("Governorate", [Cell.str "Cairo"]),
       ("Floor", [Cell.str "3"]), ("Year Built", [Cell.str "2001"])]).map Prod.fst =
    ([("Price", [Cell.str "1,000"]), ("Governorate", [Cell.str "Cairo"]),
       ("Floor", [Cell.str "3"]), ("Year Built", [Cell.str "2001"])] : Table).map Prod.fst :=
  coercion_frame_effect _ "Governorate" (by decide) (by decide) (by decide)

/-- C7: each page reads exactly its own single CSV file, and each page's
whole trace depends only on the contents of that file, so no data
produced by one page is consumed by another. -/
theorem pages_read_one_csv (fs fs' : FS) :
    (readsOf (home_page fs) = ["aqarmap_all_apartments_merged.csv"] ∧
     readsOf (eda_page fs) = ["aqar_deployment.csv"] ∧
     readsOf (preprocessed_page fs) = ["Full_train_set.csv"]) ∧
    ((fs "aqarmap_all_apartments_merged.csv" = fs' "aqarmap_all_apartments_merged.csv" →
        home_page fs = home_page fs') ∧
     (fs "aqar_deployment.csv" = fs' "aqar_deployment.csv" →
        eda_page fs = eda_page fs') ∧
     (fs "Full_train_set.csv" = fs' "Full_train_set.csv" →
        preprocessed_page fs = preprocessed_page fs')) := by
  constructor
  · refine ⟨rfl, ?_, rfl⟩
    unfold eda_page
    rw [readsOf_cons, readsOf_cons, readsOf_cons, readsOf_append, readsOf_append,
      readsOf_append, readsOf_univariateNumeric, readsOf_univariateCategorical,
      readsOf_bivariateEffects, readsOf_multivariateEffects]
    rfl
  · refine ⟨fun h => ?_, fun h => ?_, fun h => ?_⟩
    · unfold home_page; rw [h]
    · unfold eda_page; rw [h]
    · unfold preprocessed_page; rw [h]

/-- Witness for C7 at two filesystems agreeing on the home-page file. -/
theorem pages_read_one_csv_witness :
    home_page (fun _ => []) =
      home_page (fun n => if n = "Full_train_set.csv" then [("X", [])] else []) :=
  (pages_read_one_csv (fun _ => [])
    (fun n => if n = "Full_train_set.csv" then [("X", [])] else [])).2.1 (by decide)

/-- C8: the coerced result of a column is a deterministic function of
that column's raw cells alone; two tables agreeing on a raw column agree
on its coerced version whatever their other columns hold. -/
theorem coercion_deterministic (t₁ t₂ : Table) (name : String)
    (h : getCol t₁ name = getCol t₂ name) :
    getCol (coercePass t₁) name = getCol (coercePass t₂) name := by
  rw [getCol_coercePass, getCol_coercePass, h]

/-- Witness for C8 at two tables sharing a Price column. -/
theorem coercion_deterministic_witness :
    getCol (coercePass [("Price", [Cell.str "N/A", Cell.str "x"])]) "Price" =
    getCol (coercePass
      [("Governorate", [Cell.str "Giza"]), ("Price", [Cell.str "N/A", Cell.str "x"]),
       ("View", [Cell.str "garden"])]) "Price" :=
  coercion_deterministic _ _ "Price" (by decide)

/-- C9: a selection value outside the three known view names invokes no
page function and the dictionary lookup fails with a key error. -/
theorem navigation_dispatch_unknown (s : String)
    (h1 : ¬ s = "Home Page") (h2 : ¬ s = "EDA & Plots") (h3 : ¬ s = "Preprocessed Data") :
    invocations s = [] ∧
    (∀ fs : FS, appCycle s fs = Except.error ("KeyError: " ++ s)) := by
  have hl : pageLookup s = none := by
    simp [pageLookup, page_dict, List.find?, Ne.symm h1, Ne.symm h2, Ne.symm h3]
  exact ⟨by simp [invocations, hl], fun fs => by simp [appCycle, hl]⟩

/-- Witness for C9 at the unknown selection `"Bogus"`. -/
theorem navigation_dispatch_unknown_witness :
    invocations "Bogus" = [] ∧
    (∀ fs : FS, appCycle "Bogus" fs = Except.error ("KeyError: " ++ "Bogus")) :=
  navigation_dispatch_unknown "Bogus" (by decide) (by decide) (by decide)

/-- C10: the distinct-value count behind the chart choice ignores
missing entries: two columns with the same non-missing cells get the
same count, and 6 distinct non-missing values still give a pie chart in
the presence of any missing entries. -/
theorem nunique_excludes_missing (c c' : Column)
    (h : c.filter (fun x => !x.isMissing) = c'.filter (fun x => !x.isMissing)) :
    nunique c' = nunique c ∧ (nunique c = 6 → chartFor c' = ChartType.pie) := by
  have he : nunique c' = nunique c := by simp [nunique, h]
  exact ⟨he, fun h6 => by simp [chartFor, he, h6, chartForCount]⟩

/-- Witness for C10 at a column of 6 distinct values with 3 missing
entries interleaved. -/
theorem nunique_excludes_missing_witness :
    nunique [Cell.str "a", Cell.missing, Cell.str "b", Cell.str "c", Cell.missing,
        Cell.str "d", Cell.str "e", Cell.str "f", Cell.missing] =
      nunique [Cell.str "a", Cell.str "b", Cell.str "c", Cell.str "d", Cell.str "e",
        Cell.str "f"] ∧
    chartFor [Cell.str "a", Cell.missing, Cell.str "b", Cell.str "c", Cell.missing,
        Cell.str "d", Cell.str "e", Cell.str "f", Cell.missing] = ChartType.pie := by
  have h := nunique_excludes_missing
    [Cell.str "a", Cell.str "b", Cell.str "c", Cell.str "d", Cell.str "e", Cell.str "f"]
    [Cell.str "a", Cell.missing, Cell.str "b", Cell.str "c", Cell.missing,
      Cell.str "d", Cell.str "e", Cell.str "f", Cell.missing]
    (by decide)
  exact ⟨h.1, h.2 (by decide)⟩

end Aqarmap
